import Mathlib

/-!
Verification of the Ryver alerter (`elastalert/ryver.py`) against its
natural-language specification.

Modelling conventions:
* Python strings are Lean `String`s; `len` is `String.length` (both count
  unicode code points).
* The rule configuration mapping is a structure of `Option String` fields;
  `rule.get(name)` returning `None` is `none`.
* JSON-serialisable payloads are values of the inductive `Json`.
* The single `EAException` class is split into the three provenance-tagged
  constructors of `RyverError` (configuration / transport / api), one per
  raise site, following the spec's error taxonomy; each carries the exact
  message string the Python code formats.
* The HTTP transport (`requests.post`) is an external collaborator: `alert`
  receives it as a function from the JSON payload to either a raised
  transport exception (`Except.error` with the exception text) or a
  `Response`.  `requests.Response.raise_for_status` is modelled by
  `raise_for_status` with the message format the requests library uses.
-/

/-- JSON values, as far as the alerter builds or inspects them. -/
inductive Json where
  | null : Json
  | str : String → Json
  | arr : List Json → Json
  | obj : List (String × Json) → Json
deriving Repr

/-- `d[k]` on a JSON object (Python raises on a missing key or a non-dict;
the callers below catch every exception, so `none` models the raise). -/
def Json.get? : Json → String → Option Json
  | .obj fields, k => List.lookup k fields
  | _, _ => none

/-- A JSON value usable as a Python `str` (anything else makes
`", ".join` raise `TypeError`). -/
def Json.asStr : Json → Option String
  | .str s => some s
  | _ => none

/-- A JSON value iterable as a Python list of entries. -/
def Json.asArr : Json → Option (List Json)
  | .arr xs => some xs
  | _ => none

mutual
/-- `true` iff the key occurs as a field name anywhere in the value,
at any nesting depth. -/
def Json.hasKeyDeep : Json → String → Bool
  | .obj fields, k => Json.hasKeyDeepFields fields k
  | .arr xs, k => Json.hasKeyDeepArr xs k
  | _, _ => false

def Json.hasKeyDeepFields : List (String × Json) → String → Bool
  | [], _ => false
  | (k', v) :: rest, k =>
      k' == k || Json.hasKeyDeep v k || Json.hasKeyDeepFields rest k

def Json.hasKeyDeepArr : List Json → String → Bool
  | [], _ => false
  | x :: rest, k => Json.hasKeyDeep x k || Json.hasKeyDeepArr rest k
end

/-- The rule configuration mapping, restricted to the keys the alerter
reads.  `none` models an absent key (or an explicit `null`). -/
structure Rule where
  ryver_auth_basic : String
  ryver_organization : String
  ryver_avatar : Option String := none
  ryver_display_name : Option String := none
  ryver_forum_id : Option String := none
  ryver_team_id : Option String := none
  ryver_topic_id : Option String := none
deriving Repr

/-- Python truthiness of `self.rule.get(key)` for a string-valued key:
`None` and the empty string are falsy. -/
def truthy : Option String → Bool
  | none => false
  | some s => s ≠ ""

/-- The `sender` dict built at the top of `__init__`: `avatar` then
`displayName`, each inserted only when the configured value is truthy. -/
def buildSender (rule : Rule) : List (String × Json) :=
  (if truthy rule.ryver_avatar then
      [("avatar", Json.str (rule.ryver_avatar.getD ""))]
    else []) ++
  (if truthy rule.ryver_display_name then
      [("displayName", Json.str (rule.ryver_display_name.getD ""))]
    else [])

/-- The three option keys, in the source's scan order. -/
def ryver_id_names : List String :=
  ["ryver_forum_id", "ryver_team_id", "ryver_topic_id"]

/-- `self.rule.get(name)` for the three identifier keys. -/
def ruleGet (rule : Rule) (name : String) : Option String :=
  if name == "ryver_forum_id" then rule.ryver_forum_id
  else if name == "ryver_team_id" then rule.ryver_team_id
  else if name == "ryver_topic_id" then rule.ryver_topic_id
  else none

/-- The `content_factory` closure.  The topic lambda captures the loop-local
variable `ryver_id` by reference, so its payload reads the variable's final
value after the loop (stored in the connector below); the team and forum
lambdas capture the (never again mutated) `sender` dict by reference,
modelled as a value. -/
inductive ContentFactory where
  | topic : ContentFactory
  | chat : List (String × Json) → ContentFactory
deriving Repr

/-- The mutable locals of the `for name in ryver_id_names` loop, together
with the attributes the loop body assigns.  `url_path`, `content_factory`
and `log_message` are always assigned together; the conflict branch resets
only `url_path`, the sole guard consulted afterwards. -/
structure LoopState where
  url_path : Option String
  content_factory : Option ContentFactory
  log_message : Option String
  ryver_id : Option String
deriving Repr

/-- One pass of the destination-resolution loop, with `break` modelled by
returning the state without recursing. -/
def resolveLoop (rule : Rule) : LoopState → List String → LoopState
  | st, [] => st
  | st, name :: rest =>
    let ryver_id := ruleGet rule name
    match ryver_id with
    | none => resolveLoop rule { st with ryver_id := none } rest
    | some idv =>
      if st.url_path.isSome then
        -- a second configured identifier: reset url_path and break
        { st with url_path := none, ryver_id := some idv }
      else
        let st' : LoopState :=
          if name == "ryver_topic_id" then
            { url_path := some "postComments?$format=json",
              content_factory := some ContentFactory.topic,
              log_message := some ("Alert sent to Ryver forum: " ++ idv),
              ryver_id := some idv }
          else if name == "ryver_team_id" then
            { url_path := some ("workrooms(" ++ idv ++ ")/Chat.PostMessage()"),
              content_factory := some (ContentFactory.chat (buildSender rule)),
              log_message := some ("Alert sent to Ryver team: " ++ idv),
              ryver_id := some idv }
          else
            { url_path := some ("forums(" ++ idv ++ ")/Chat.PostMessage()"),
              content_factory := some (ContentFactory.chat (buildSender rule)),
              log_message := some ("Alert sent to Ryver forum: " ++ idv),
              ryver_id := some idv }
        resolveLoop rule st' rest

/-- Error taxonomy: the spec's three error classes, tagging the three
`EAException` raise sites; each carries the formatted message. -/
inductive RyverError where
  | configurationError : String → RyverError
  | transportError : String → RyverError
  | apiError : String → RyverError
deriving Repr, DecidableEq

/-- The connector state `__init__` leaves behind.  `final_ryver_id` is the
value of the loop-local `ryver_id` variable when `__init__` returns, which
is what the topic `content_factory` closure reads at alert time. -/
structure Connector where
  ryver_auth_basic : String
  ryver_organization : String
  content_factory : ContentFactory
  final_ryver_id : Option String
  log_message : String
  url : String
  headers : List (String × String)
deriving Repr

/-- `RyverAlerter.__init__`: destination resolution, the mutual-exclusivity
check, and the cached url/headers.  Pure: no network activity can occur
here (the transport is only ever consulted by `alert`). -/
def mkRyverAlerter (rule : Rule) : Except RyverError Connector :=
  let st := resolveLoop rule
    { url_path := none, content_factory := none,
      log_message := none, ryver_id := none } ryver_id_names
  match st.url_path with
  | none =>
      .error (.configurationError
        ("You need to specify one and only one of following options: " ++
         "ryver_forum_id, ryver_team_id, ryver_topic_id"))
  | some url_path =>
      -- content_factory and log_message are assigned in the same branch as
      -- every `some` assignment to url_path, so the defaults are dead code
      .ok { ryver_auth_basic := rule.ryver_auth_basic,
            ryver_organization := rule.ryver_organization,
            content_factory := st.content_factory.getD (ContentFactory.chat []),
            final_ryver_id := st.ryver_id,
            log_message := st.log_message.getD "",
            url := "https://" ++ rule.ryver_organization ++
                   ".ryver.com/api/1/odata.svc/" ++ url_path,
            headers :=
              [("content-type", "application/json"),
               ("Authorization", "Basic " ++ rule.ryver_auth_basic)] }

/-- A `None` identifier serialises to JSON `null`, a string to a string. -/
def jsonOfOpt : Option String → Json
  | none => Json.null
  | some s => Json.str s

/-- `self.content_factory(body)`: the payload the resolved closure builds,
given the final value of the captured `ryver_id` variable. -/
def contentOf (f : ContentFactory) (finalRyverId : Option String)
    (body : String) : Json :=
  match f with
  | .topic =>
      Json.obj [("comment", Json.str body),
                ("post", Json.obj [("id", jsonOfOpt finalRyverId)])]
  | .chat sender =>
      Json.obj [("body", Json.str body), ("createSource", Json.obj sender)]

/-- The payload `alert` posts for a given (already fitted) body. -/
def create_payload (c : Connector) (body : String) : Json :=
  contentOf c.content_factory c.final_ryver_id body

/-- The truncation marker appended to oversized bodies. -/
def truncatedMarker : String := " [... content too big]"

/-- Python `s[0:stop]` where `stop` may be negative: a non-negative stop
takes that many leading characters; a negative stop drops `|stop|` trailing
characters (clamping at the empty string). -/
def pySlice0 (s : List Char) (stop : Int) : List Char :=
  if 0 ≤ stop then s.take stop.toNat
  else s.take (s.length - (-stop).toNat)

/-- `RyverAlerter.fit_body`: return bodies of at most `max_size` characters
unchanged, otherwise cut to `max_size - len(truncatedMarker)` characters
(a Python slice, so a negative bound drops from the end) and append the
marker. -/
def fit_body (body : String) (max_size : Nat := 8180) : String :=
  if body.length ≤ max_size then body
  else
    ⟨pySlice0 body.data ((max_size : Int) - (truncatedMarker.length : Int)) ++
      truncatedMarker.data⟩

/-- An HTTP response as `check_ryver_response` observes it: status code,
final url, reason phrase, and the result of `response.json()` (`none` when
the body does not parse as JSON, which the Python code observes as a raised
exception). -/
structure Response where
  status_code : Nat
  url : String
  reason : String
  jsonBody : Option Json
deriving Repr

/-- The `try` block over the enrichment expression
`", ".join(d['message'] for d in response.json()['error']['details'])`:
`none` models any raised exception (missing key, non-dict, non-list,
entry without a string `message`), all swallowed by the bare `except`. -/
def extractDetails (j : Json) : Option (List String) := do
  let details ← (← (← j.get? "error").get? "details").asArr
  details.mapM (fun d => do (← d.get? "message").asStr)

/-- The exception message `requests.Response.raise_for_status` raises for a
4xx/5xx status (requests formats client and server errors differently). -/
def httpErrorText (r : Response) : String :=
  if r.status_code < 500 then
    toString r.status_code ++ " Client Error: " ++ r.reason ++
      " for url: " ++ r.url
  else
    toString r.status_code ++ " Server Error: " ++ r.reason ++
      " for url: " ++ r.url

/-- `response.raise_for_status()` wrapped by the `except requests.HTTPError`
handler: any status in [400, 600) becomes the generic `ApiError`. -/
def raise_for_status (r : Response) : Except RyverError Unit :=
  if 400 ≤ r.status_code ∧ r.status_code < 600 then
    .error (.apiError ("Error posting to Ryver: " ++ httpErrorText r))
  else .ok ()

/-- `RyverAlerter.check_ryver_response`: on a 400, try to build the
enriched message from the response body and raise it; if that enrichment
raises anything, fall through to the generic `raise_for_status` handling. -/
def check_ryver_response (r : Response) : Except RyverError Unit :=
  if r.status_code == 400 then
    match r.jsonBody.bind extractDetails with
    | some msgs =>
        .error (.apiError
          ("Error " ++ toString r.status_code ++
           " sending message to Ryver on " ++ r.url ++ ": " ++
           String.intercalate ", " msgs))
    | none => raise_for_status r
  else raise_for_status r

/-- `RyverAlerter.alert`, with the rendered alert body (the external
`create_alert_body` collaborator's output) and the transport passed in.
The transport maps the posted JSON payload to either a raised
`requests.RequestException` (`Except.error` with its text) or a `Response`.
On success the log message handed to `elastalert_logger.info` is returned. -/
def alert (c : Connector) (renderedBody : String)
    (transport : Json → Except String Response) : Except RyverError String :=
  let body := fit_body renderedBody
  let json_content := create_payload c body
  match transport json_content with
  | .error e =>
      .error (.transportError ("Error while contacting Ryver: " ++ e))
  | .ok response => do
      check_ryver_response response
      pure c.log_message

/-- `RyverAlerter.get_info`. -/
def get_info (c : Connector) : List (String × String) :=
  [("type", "ryver"), ("url", c.url)]

/-- How many of the three destination identifiers are set (present in the
rule mapping with any value, the empty string included). -/
def idsSet (rule : Rule) : Nat :=
  (if rule.ryver_forum_id.isSome then 1 else 0) +
  (if rule.ryver_team_id.isSome then 1 else 0) +
  (if rule.ryver_topic_id.isSome then 1 else 0)

/-- ASCII lowercasing of a header name, for stating case-insensitive
header containment (HTTP header field names are case-insensitive). -/
def asciiLower (s : String) : String := ⟨s.data.map Char.toLower⟩

/-- A sample topic-destination rule, used to instantiate theorems. -/
def topicRule : Rule :=
  { ryver_auth_basic := "A", ryver_organization := "org",
    ryver_topic_id := some "T1" }

/-- The connector `mkRyverAlerter` builds from `topicRule`. -/
def topicConnector : Connector :=
  { ryver_auth_basic := "A", ryver_organization := "org",
    content_factory := ContentFactory.topic, final_ryver_id := some "T1",
    log_message := "Alert sent to Ryver forum: T1",
    url := "https://org.ryver.com/api/1/odata.svc/postComments?$format=json",
    headers := [("content-type", "application/json"),
                ("Authorization", "Basic A")] }

/-- A team-destination rule whose optional avatar is present in the
mapping but equal to the empty string. -/
def emptyAvatarTeamRule : Rule :=
  { ryver_auth_basic := "A", ryver_organization := "org",
    ryver_avatar := some "", ryver_team_id := some "T" }

/-- A team-destination rule. -/
def teamRule : Rule :=
  { ryver_auth_basic := "A", ryver_organization := "org",
    ryver_team_id := some "T42" }

/-- A rule whose only destination identifier is set to the empty string. -/
def emptyForumRule : Rule :=
  { ryver_auth_basic := "A", ryver_organization := "org",
    ryver_forum_id := some "" }

/-- **C1.**  Construction fails, with a `ConfigurationError` whose message
names all three option keys, exactly when the number of destination
identifiers set is not one; with exactly one set it succeeds.
`mkRyverAlerter` is pure, so the failure precedes any network activity
(only `alert` consults the transport). -/
theorem construction_exclusivity (rule : Rule) :
    ((∃ c, mkRyverAlerter rule = .ok c) ↔ idsSet rule = 1) ∧
    (idsSet rule ≠ 1 →
      mkRyverAlerter rule = .error (.configurationError
        ("You need to specify one and only one of following options: " ++
         "ryver_forum_id, ryver_team_id, ryver_topic_id"))) := by
  obtain ⟨auth, org, av, dn, f, t, tp⟩ := rule
  cases f <;> cases t <;> cases tp <;>
    simp [mkRyverAlerter, resolveLoop, ryver_id_names, ruleGet, idsSet]

/-- Witness for C1 at a configuration with no identifier set. -/
theorem construction_exclusivity_witness :
    idsSet { ryver_auth_basic := "A", ryver_organization := "org" } ≠ 1 ∧
    mkRyverAlerter { ryver_auth_basic := "A", ryver_organization := "org" } =
      .error (.configurationError
        ("You need to specify one and only one of following options: " ++
         "ryver_forum_id, ryver_team_id, ryver_topic_id")) :=
  ⟨by decide,
   (construction_exclusivity
     { ryver_auth_basic := "A", ryver_organization := "org" }).2 (by decide)⟩

/-- **C2.**  For every configuration with exactly one identifier set, the
resolved URL suffix and the payload built from a body match the
destination table; in particular the id embedded in the topic payload is
the configured topic identifier (the scan visits the topic key last, so
the captured `ryver_id` variable still holds it at alert time). -/
theorem resolved_routes (auth org : String) (av dn : Option String)
    (idv body : String) :
    (∃ c, mkRyverAlerter ⟨auth, org, av, dn, none, none, some idv⟩ = .ok c ∧
      c.url = "https://" ++ org ++ ".ryver.com/api/1/odata.svc/" ++
        "postComments?$format=json" ∧
      create_payload c body =
        Json.obj [("comment", Json.str body),
                  ("post", Json.obj [("id", Json.str idv)])]) ∧
    (∃ c, mkRyverAlerter ⟨auth, org, av, dn, none, some idv, none⟩ = .ok c ∧
      c.url = "https://" ++ org ++ ".ryver.com/api/1/odata.svc/" ++
        ("workrooms(" ++ idv ++ ")/Chat.PostMessage()") ∧
      create_payload c body =
        Json.obj [("body", Json.str body),
                  ("createSource",
                    Json.obj (buildSender ⟨auth, org, av, dn, none, some idv, none⟩))]) ∧
    (∃ c, mkRyverAlerter ⟨auth, org, av, dn, some idv, none, none⟩ = .ok c ∧
      c.url = "https://" ++ org ++ ".ryver.com/api/1/odata.svc/" ++
        ("forums(" ++ idv ++ ")/Chat.PostMessage()") ∧
      create_payload c body =
        Json.obj [("body", Json.str body),
                  ("createSource",
                    Json.obj (buildSender ⟨auth, org, av, dn, some idv, none, none⟩))]) := by
  refine ⟨⟨_, rfl, rfl, rfl⟩, ⟨_, rfl, rfl, rfl⟩, ⟨_, rfl, rfl, rfl⟩⟩

/-- **C3.**  On a 400 response: when the enrichment expression over the
JSON body succeeds with the detail messages, the call fails with an
`ApiError` whose message is exactly status code, request URL and the
details joined by a comma-space; when the enrichment raises (unparsable
body or wrong shape), the call falls through to the generic `ApiError`
built from the HTTP status and reason — the enrichment failure never
masks the underlying HTTP error and never escapes. -/
theorem error_enrichment (r : Response) (h400 : r.status_code = 400) :
    (∀ msgs, r.jsonBody.bind extractDetails = some msgs →
      check_ryver_response r = .error (.apiError
        ("Error " ++ toString r.status_code ++
         " sending message to Ryver on " ++ r.url ++ ": " ++
         String.intercalate ", " msgs))) ∧
    (r.jsonBody.bind extractDetails = none →
      check_ryver_response r = .error (.apiError
        ("Error posting to Ryver: " ++ httpErrorText r))) := by
  constructor
  · intro msgs hm
    simp [check_ryver_response, h400, hm]
  · intro hm
    simp [check_ryver_response, raise_for_status, h400, hm]

/-- Witness for C3: the spec's example body with details `bad id` and
`too long` yields the joined enriched message, and the same status with an
unparsable body yields the generic error. -/
theorem error_enrichment_witness :
    check_ryver_response
        ⟨400, "https://u", "Bad Request",
         some (Json.obj [("error", Json.obj [("details", Json.arr
           [Json.obj [("message", Json.str "bad id")],
            Json.obj [("message", Json.str "too long")]])])])⟩ =
      .error (.apiError
        ("Error " ++ toString (400 : Nat) ++
         " sending message to Ryver on " ++ "https://u" ++ ": " ++
         String.intercalate ", " ["bad id", "too long"])) ∧
    check_ryver_response ⟨400, "https://u", "Bad Request", none⟩ =
      .error (.apiError ("Error posting to Ryver: " ++
        httpErrorText ⟨400, "https://u", "Bad Request", none⟩)) :=
  ⟨(error_enrichment _ rfl).1 ["bad id", "too long"] rfl,
   (error_enrichment _ rfl).2 rfl⟩

/-- **C4.**  With the default maximum of 8180: a body of at most 8180
characters is returned unchanged; a longer body becomes exactly 8180
characters, namely the first `8180 - 22` characters of the body followed
by the 22-character marker ` [... content too big]`. -/
theorem fit_body_default (body : String) :
    truncatedMarker.length = 22 ∧
    (body.length ≤ 8180 → fit_body body = body) ∧
    (8180 < body.length →
      (fit_body body).length = 8180 ∧
      fit_body body = ⟨body.data.take 8158 ++ truncatedMarker.data⟩) := by
  refine ⟨rfl, ?_, ?_⟩
  · intro h
    simp [fit_body, h]
  · intro h
    have hnot : ¬ body.length ≤ 8180 := by omega
    have hm : truncatedMarker.length = 22 := rfl
    have hfit : fit_body body = ⟨body.data.take 8158 ++ truncatedMarker.data⟩ := by
      simp [fit_body, hnot, pySlice0, hm]
    refine ⟨?_, hfit⟩
    rw [hfit]
    show (body.data.take 8158 ++ truncatedMarker.data).length = 8180
    rw [List.length_append, List.length_take]
    have h1 : body.data.length = body.length := rfl
    have h2 : truncatedMarker.data.length = 22 := rfl
    omega

/-- Witness for C4: a one-character body is unchanged, and an
8181-character body is cut to exactly 8180 characters. -/
theorem fit_body_default_witness :
    fit_body "a" = "a" ∧
    (fit_body ⟨List.replicate 8181 'a'⟩).length = 8180 :=
  ⟨(fit_body_default "a").2.1 (by decide),
   ((fit_body_default ⟨List.replicate 8181 'a'⟩).2.2 (by
      show 8180 < (List.replicate 8181 'a').length
      rw [List.length_replicate]
      omega)).1⟩

/-- **C5 counterexample.**  With `max_size := 1` (below the marker's 22
characters) a 23-character body is "fitted" to 24 characters: the Python
slice bound `max_size - len(marker)` is negative, so the slice drops
characters from the end instead of bounding the length, and the appended
marker alone already exceeds the maximum. -/
theorem fit_body_bound_cex :
    (fit_body ⟨List.replicate 23 'a'⟩ 1).length = 24 ∧
    ¬ (fit_body ⟨List.replicate 23 'a'⟩ 1).length ≤ 1 := by decide

/-- **C5 (amended).**  The fitter is a total function of its two
arguments, and whenever the maximum is at least the marker's 22
characters — in particular at the default 8180 — the output length is at
most `max_size`. -/
theorem fit_body_length_le (body : String) (max_size : Nat)
    (h : truncatedMarker.length ≤ max_size) :
    (fit_body body max_size).length ≤ max_size := by
  have hm : truncatedMarker.length = 22 := rfl
  have hdm : truncatedMarker.data.length = 22 := rfl
  by_cases hle : body.length ≤ max_size
  · simp [fit_body, hle]
  · have h0 : (0 : Int) ≤ (max_size : Int) - (truncatedMarker.length : Int) := by
      omega
    simp only [fit_body, if_neg hle]
    show (pySlice0 body.data ((max_size : Int) - (truncatedMarker.length : Int)) ++
        truncatedMarker.data).length ≤ max_size
    rw [List.length_append, hdm]
    unfold pySlice0
    rw [if_pos h0, List.length_take]
    have ht : ((max_size : Int) - (truncatedMarker.length : Int)).toNat =
        max_size - 22 := by omega
    omega

/-- Witness for C5 (amended) at the marker-length boundary. -/
theorem fit_body_length_le_witness :
    (fit_body ⟨List.replicate 23 'a'⟩ 22).length ≤ 22 :=
  fit_body_length_le ⟨List.replicate 23 'a'⟩ 22 (by decide)

/-- **C6.**  When the transport raises (any `requests.RequestException`:
connection error, timeout, malformed response, DNS failure), `alert`
fails with a `TransportError` wrapping the underlying exception text; the
transport is consulted exactly once (there is no retry in `alert`), and
the failure is never an `ApiError` or a `ConfigurationError`. -/
theorem transport_failure (c : Connector) (body e : String) :
    alert c body (fun _ => .error e) =
      .error (.transportError ("Error while contacting Ryver: " ++ e)) ∧
    ∀ m, alert c body (fun _ => .error e) ≠ .error (.apiError m) ∧
      alert c body (fun _ => .error e) ≠ .error (.configurationError m) := by
  refine ⟨rfl, ?_⟩
  intro m
  constructor <;> simp [alert]

/-- `hasKeyDeepFields` distributes over list append. -/
theorem hasKeyDeepFields_append (l1 l2 : List (String × Json)) (k : String) :
    Json.hasKeyDeepFields (l1 ++ l2) k =
      (Json.hasKeyDeepFields l1 k || Json.hasKeyDeepFields l2 k) := by
  induction l1 with
  | nil => simp [Json.hasKeyDeepFields]
  | cons hd tl ih =>
      obtain ⟨k', v⟩ := hd
      simp [Json.hasKeyDeepFields, ih, Bool.or_assoc]

/-- **C7 counterexample.**  The avatar key follows Python truthiness, not
presence: with `ryver_avatar` present in the rule mapping but equal to the
empty string, the team payload's `createSource` carries no `avatar` key,
so "key exactly when the field is present" fails. -/
theorem sender_presence_cex :
    emptyAvatarTeamRule.ryver_avatar.isSome = true ∧
    ∃ c, mkRyverAlerter emptyAvatarTeamRule = .ok c ∧
      Json.hasKeyDeep (create_payload c "b") "avatar" = false :=
  ⟨rfl, _, rfl, rfl⟩

/-- **C7 (amended).**  The topic payload never contains a `createSource`,
`avatar` or `displayName` field at any depth, whatever optional sender
fields are configured; for the team and forum destinations the payload
contains the `avatar` (resp. `displayName`) key exactly when the
corresponding optional field is present **and non-empty** (Python
truthiness). -/
theorem sender_metadata (auth org idv body : String) (av dn : Option String) :
    (∃ c, mkRyverAlerter ⟨auth, org, av, dn, none, none, some idv⟩ = .ok c ∧
      Json.hasKeyDeep (create_payload c body) "createSource" = false ∧
      Json.hasKeyDeep (create_payload c body) "avatar" = false ∧
      Json.hasKeyDeep (create_payload c body) "displayName" = false) ∧
    (∃ c, mkRyverAlerter ⟨auth, org, av, dn, none, some idv, none⟩ = .ok c ∧
      Json.hasKeyDeep (create_payload c body) "avatar" = truthy av ∧
      Json.hasKeyDeep (create_payload c body) "displayName" = truthy dn) ∧
    (∃ c, mkRyverAlerter ⟨auth, org, av, dn, some idv, none, none⟩ = .ok c ∧
      Json.hasKeyDeep (create_payload c body) "avatar" = truthy av ∧
      Json.hasKeyDeep (create_payload c body) "displayName" = truthy dn) := by
  refine ⟨⟨_, rfl, rfl, rfl, rfl⟩, ⟨_, rfl, ?_, ?_⟩, ⟨_, rfl, ?_, ?_⟩⟩ <;>
  · show Json.hasKeyDeepFields _ _ = _
    simp [Json.hasKeyDeepFields, Json.hasKeyDeep, buildSender,
      hasKeyDeepFields_append]
    cases htr : truthy av <;> cases htr2 : truthy dn <;>
      simp [Json.hasKeyDeepFields, Json.hasKeyDeep]

/-- **C8.**  Every successfully constructed connector posts to
`https://{organization}.ryver.com/api/1/odata.svc/{url_path}` with headers
containing exactly a `content-type: application/json` entry
(`Content-Type`, compared case-insensitively as HTTP prescribes) and an
`Authorization: Basic {credential}` entry in which the configured
credential string appears verbatim. -/
theorem url_and_headers (rule : Rule) (c : Connector)
    (h : mkRyverAlerter rule = .ok c) :
    (∃ url_path, c.url = "https://" ++ rule.ryver_organization ++
      ".ryver.com/api/1/odata.svc/" ++ url_path) ∧
    c.headers = [("content-type", "application/json"),
                 ("Authorization", "Basic " ++ rule.ryver_auth_basic)] ∧
    (∃ k, (k, "application/json") ∈ c.headers ∧ asciiLower k = "content-type") ∧
    ("Authorization", "Basic " ++ rule.ryver_auth_basic) ∈ c.headers := by
  simp only [mkRyverAlerter] at h
  split at h
  · exact absurd h (by simp)
  · next p heq =>
      injection h with h
      subst h
      exact ⟨⟨p, rfl⟩, rfl, ⟨"content-type", by simp, rfl⟩, by simp⟩

/-- Witness for C8 at the sample topic configuration. -/
theorem url_and_headers_witness :
    (∃ url_path, topicConnector.url = "https://" ++
      topicRule.ryver_organization ++ ".ryver.com/api/1/odata.svc/" ++
      url_path) ∧
    topicConnector.headers =
      [("content-type", "application/json"),
       ("Authorization", "Basic " ++ topicRule.ryver_auth_basic)] ∧
    (∃ k, (k, "application/json") ∈ topicConnector.headers ∧
      asciiLower k = "content-type") ∧
    ("Authorization", "Basic " ++ topicRule.ryver_auth_basic) ∈
      topicConnector.headers :=
  url_and_headers topicRule topicConnector rfl

/-- **C9 counterexample.**  For a team-destination configuration the
success log message is `Alert sent to Ryver team: T42`, not the claimed
`Alert sent to Ryver forum: T42`. -/
theorem team_label_cex :
    ∃ c, mkRyverAlerter teamRule = .ok c ∧
      alert c "b" (fun _ => .ok ⟨200, c.url, "OK", none⟩) =
        .ok "Alert sent to Ryver team: T42" ∧
      alert c "b" (fun _ => .ok ⟨200, c.url, "OK", none⟩) ≠
        .ok "Alert sent to Ryver forum: T42" := by
  refine ⟨_, rfl, rfl, ?_⟩
  show (Except.ok "Alert sent to Ryver team: T42" : Except RyverError String) ≠
    Except.ok "Alert sent to Ryver forum: T42"
  intro hcontra
  exact absurd (Except.ok.inj hcontra) (by decide)

/-- **C9 (amended).**  The team destination logs
`Alert sent to Ryver team: <teamId>` on a successful (2xx) alert; the
label mismatch is on the topic destination, which logs
`Alert sent to Ryver forum: <topicId>`. -/
theorem log_labels (auth org idv body : String) (av dn : Option String) :
    (∃ c, mkRyverAlerter ⟨auth, org, av, dn, none, some idv, none⟩ = .ok c ∧
      c.log_message = "Alert sent to Ryver team: " ++ idv ∧
      alert c body (fun _ => .ok ⟨200, c.url, "OK", none⟩) =
        .ok ("Alert sent to Ryver team: " ++ idv)) ∧
    (∃ c, mkRyverAlerter ⟨auth, org, av, dn, none, none, some idv⟩ = .ok c ∧
      c.log_message = "Alert sent to Ryver forum: " ++ idv ∧
      alert c body (fun _ => .ok ⟨200, c.url, "OK", none⟩) =
        .ok ("Alert sent to Ryver forum: " ++ idv)) :=
  ⟨⟨_, rfl, rfl, rfl⟩, ⟨_, rfl, rfl, rfl⟩⟩

/-- **C10.**  Presence, not truthiness, decides whether a destination
identifier is set: a rule whose only identifier is the forum id with the
empty string as value is accepted, and the empty string is embedded in
the resolved endpoint path `forums()/Chat.PostMessage()`. -/
theorem empty_id_counts_as_set :
    ∃ c, mkRyverAlerter emptyForumRule = .ok c ∧
      c.url =
        "https://org.ryver.com/api/1/odata.svc/forums()/Chat.PostMessage()" :=
  ⟨_, rfl, by decide⟩
